import Mathlib

/-!
Verification development for the adaptive content acquisition and
normalization pipeline (backend of the Comprehensiv_BOT repository).

Python strings are embedded as `List Char` (a Python `str` is a sequence
of Unicode code points, and `List Char` mirrors indexing, slicing and
iteration directly).  The development restricts attention to inputs made
of Unicode scalar values for which the Python `str` classification
methods (`isalpha`, `lower`, `split`, …) agree with the ASCII-style
predicates below; on ASCII text the embedding is exact.

Python `float` comparisons of ratios (such as `repetition_ratio > 0.3`)
are embedded as exact integer cross-multiplications; the two agree
except for denominators of astronomical size, far beyond any value the
program can build from texts of the sizes treated here.
-/

set_option maxRecDepth 100000

namespace Bot

/-- Python `str.split()` / `str.strip()` whitespace: the ASCII whitespace
characters recognised by `str.isspace` (space, tab, newline, carriage
return, vertical tab, form feed). -/
def pyIsSpace (c : Char) : Bool :=
  c = ' ' || c = '\t' || c = '\n' || c = '\r' || c = '\x0b' || c = '\x0c'

/-- Python `str.isalpha` on a single ASCII character. -/
def pyIsAlphaChar (c : Char) : Bool :=
  ('a' ≤ c && c ≤ 'z') || ('A' ≤ c && c ≤ 'Z')

/-- ASCII digit, the `\d` class of the `re` module on ASCII text. -/
def pyIsDigit (c : Char) : Bool :=
  '0' ≤ c && c ≤ '9'

/-- The `\w` class of the `re` module (word character) on ASCII text. -/
def pyIsWordChar (c : Char) : Bool :=
  pyIsAlphaChar c || pyIsDigit c || c = '_'

/-- ASCII uppercase letter. -/
def pyIsUpperChar (c : Char) : Bool := 'A' ≤ c && c ≤ 'Z'

/-- ASCII lowercase letter. -/
def pyIsLowerChar (c : Char) : Bool := 'a' ≤ c && c ≤ 'z'

/-- Python `str.lower` on a single ASCII character. -/
def pyToLower (c : Char) : Char :=
  if 'A' ≤ c && c ≤ 'Z' then Char.ofNat (c.toNat + 32) else c

/-- Python `str.lower` over a whole string. -/
def pyLower (s : List Char) : List Char := s.map pyToLower

/-- Drop a trailing run of characters satisfying `p` (helper for
`str.strip` and for trailing-class regex substitutions). -/
def dropTrailWhile (p : Char → Bool) (s : List Char) : List Char :=
  (s.reverse.dropWhile p).reverse

/-- Python `str.strip()`: remove leading and trailing whitespace. -/
def pyStrip (s : List Char) : List Char :=
  dropTrailWhile pyIsSpace (s.dropWhile pyIsSpace)

/-- Helper for `pySplitWs`: walk the string keeping the (reversed)
current word in `acc`; a whitespace character flushes the word. -/
def pySplitWsAux : List Char → List Char → List (List Char)
  | [], acc => if acc.isEmpty then [] else [acc.reverse]
  | c :: rest, acc =>
    if pyIsSpace c then
      if acc.isEmpty then pySplitWsAux rest []
      else acc.reverse :: pySplitWsAux rest []
    else pySplitWsAux rest (c :: acc)

/-- Python `str.split()` with no argument: split on runs of whitespace,
discarding empty pieces. -/
def pySplitWs (s : List Char) : List (List Char) := pySplitWsAux s []

/-- Python `str.split(sep)` with a one-character separator: keep empty
pieces; the result is always non-empty. -/
def pySplitChar (sep : Char) : List Char → List (List Char)
  | [] => [[]]
  | c :: rest =>
    if c = sep then [] :: pySplitChar sep rest
    else
      match pySplitChar sep rest with
      | [] => [[c]]
      | w :: ws => (c :: w) :: ws

/-- Python `'\n'.join(pieces)` (generic one-character joiner). -/
def joinChar (sep : Char) : List (List Char) → List Char
  | [] => []
  | [l] => l
  | l :: rest => l ++ sep :: joinChar sep rest

/-- Python substring test (`needle in haystack`). -/
def isSubstr (needle : List Char) : List Char → Bool
  | [] => needle.isEmpty
  | c :: rest => needle.isPrefixOf (c :: rest) || isSubstr needle rest

/-- Python `str.startswith` for `List Char`. -/
def pyStarts (pre s : List Char) : Bool := pre.isPrefixOf s

/-! ## Quality Scorer
`ContentQualityAnalyzer.analyze_content_quality` from
`backend/enhanced_preprocess.py`. -/

/-- Python `word.isalpha()`: non-empty and all characters alphabetic. -/
def pyIsAlphaWord (w : List Char) : Bool := !w.isEmpty && w.all pyIsAlphaChar

/-- `word.lower() for word in words if word.isalpha()` -/
def alphaLowerWords (words : List (List Char)) : List (List Char) :=
  (words.filter pyIsAlphaWord).map pyLower

/-- `Counter(...).most_common(1)[0][1]` — the highest multiplicity in the
list (`0` for the empty list, matching the source's guard). -/
def mostCommonFreq (ws : List (List Char)) : Nat :=
  ws.foldl (fun m w => max m (ws.count w)) 0

/-- The quality report of `analyze_content_quality`.  For empty input the
source returns a dict holding only `quality_score` and `issues`; the
remaining numeric fields are reported here as `0` in that case.
`repetition_ratio` is kept as its exact numerator/denominator pair
(`most_common_freq`, `max word_count 1`). -/
structure QualityReport where
  quality_score : Nat
  char_count : Nat
  word_count : Nat
  line_count : Nat
  unique_words : Nat
  most_common_freq : Nat
  issues : List String
  deriving Repr, DecidableEq

/-- `ContentQualityAnalyzer.analyze_content_quality(text)`.

A pure total function (deterministic, no side effects, no exceptions).
The score is accumulated sequentially exactly as in the source; float
ratio comparisons are embedded as exact cross-multiplications:
`diversity_ratio > 0.5` as `2*unique > wc`, `diversity_ratio < 0.3` as
`10*unique < 3*wc`, `repetition_ratio > 0.3` as `10*mcf > 3*max wc 1`,
and `3 < avg_word_length < 8` as `3*m < sum ∧ sum < 8*m`. -/
def analyze_content_quality (text : List Char) : QualityReport :=
  if text.isEmpty then
    { quality_score := 0, char_count := 0, word_count := 0, line_count := 0,
      unique_words := 0, most_common_freq := 0, issues := ["Empty content"] }
  else
    let lines := pySplitChar '\n' (pyStrip text)
    let words := pySplitWs text
    let char_count := text.length
    let word_count := words.length
    let line_count := (lines.filter (fun l => !(pyStrip l).isEmpty)).length
    let aw := alphaLowerWords words
    let unique_words := aw.dedup.length
    let word_length_sum := (words.map List.length).sum
    let mcf := mostCommonFreq aw
    let m := max word_count 1
    -- `quality_score = 0`, then the five checks in source order; the
    -- score increments and the issue appends of each `if`/`elif` chain
    -- are independent, so they are written as parallel conditionals
    let q1 : Nat := if char_count < 100 then 0 else if char_count > 500 then 20 else 0
    let is1 : List String := if char_count < 100 then ["Content too short"] else []
    let q2 := if word_count > 0 ∧ 2 * unique_words > word_count then q1 + 30 else q1
    let is2 := is1 ++
      (if word_count > 0 ∧ ¬2 * unique_words > word_count
          ∧ 10 * unique_words < 3 * word_count
       then ["Low word diversity"] else [])
    let q3 := if 10 * mcf > 3 * m then q2 else q2 + 25
    let is3 := is2 ++ (if 10 * mcf > 3 * m then ["High repetition detected"] else [])
    let q4 := if line_count > 5 then q3 + 15 else q3
    let q5 := if 3 * m < word_length_sum ∧ word_length_sum < 8 * m then q4 + 10 else q4
    { quality_score := min q5 100, char_count := char_count,
      word_count := word_count, line_count := line_count,
      unique_words := unique_words, most_common_freq := mcf, issues := is3 }

/-! ### Spec-side additive formulation of the score (for claim C7)
These definitions follow the spec's wording of the score as a sum of
independent bonuses, with the length threshold written as the code has
it (`> 500`, strict).  They are compared against
`analyze_content_quality` and are not used by any embedded function. -/

/-- Spec bonus: length (as the code computes it: strictly more than 500). -/
def spec_length_bonus (t : List Char) : Nat :=
  if t.length > 500 then 20 else 0

/-- Spec bonus: word diversity ratio above one half. -/
def spec_diversity_bonus (t : List Char) : Nat :=
  let words := pySplitWs t
  if words.length > 0 ∧ 2 * (alphaLowerWords words).dedup.length > words.length
  then 30 else 0

/-- Spec bonus: repetition ratio not above three tenths. -/
def spec_repetition_bonus (t : List Char) : Nat :=
  let words := pySplitWs t
  if 10 * mostCommonFreq (alphaLowerWords words) > 3 * max words.length 1
  then 0 else 25

/-- Spec bonus: more than five non-blank lines. -/
def spec_line_bonus (t : List Char) : Nat :=
  if ((pySplitChar '\n' (pyStrip t)).filter (fun l => !(pyStrip l).isEmpty)).length > 5
  then 15 else 0

/-- Spec bonus: average word length strictly between 3 and 8. -/
def spec_avg_word_bonus (t : List Char) : Nat :=
  let words := pySplitWs t
  let m := max words.length 1
  let s := (words.map List.length).sum
  if 3 * m < s ∧ s < 8 * m then 10 else 0

/-- The claim's additive score with the threshold exactly as the claim
words it: `+20 when length ≥ 500 chars` (non-strict). -/
def claim_length_bonus (t : List Char) : Nat :=
  if t.length ≥ 500 then 20 else 0

/-- The score as claim C7 words it: sum of the five bonuses with the
non-strict `≥ 500` length threshold, capped at 100. -/
def claim_additive_score (t : List Char) : Nat :=
  min (claim_length_bonus t + spec_diversity_bonus t + spec_repetition_bonus t
       + spec_line_bonus t + spec_avg_word_bonus t) 100

/-! ## Budget Selector
`_count_tokens`, `_build_prompt_standard`, `_build_prompt_instruct` and
`_select_model_and_prompt` from `backend/generator.py`. -/

/-- `DEFAULT_MODEL` -/
def DEFAULT_MODEL : String := "openai/gpt-oss-120b"

/-- `FALLBACK_MODEL` -/
def FALLBACK_MODEL : String := "meta-llama/llama-4-scout-17b-16e-instruct"

/-- `TOKEN_LIMIT_PRIMARY` -/
def TOKEN_LIMIT_PRIMARY : Nat := 3500

/-- `TOKEN_LIMIT_FALLBACK` -/
def TOKEN_LIMIT_FALLBACK : Nat := 12000

/-- `_count_tokens`: `int(len(text) / 2)` (the early return for empty
text coincides with the formula). -/
def count_tokens (t : List Char) : Nat := t.length / 2

/-- Python slice `s[:a]` (negative bounds count from the end). -/
def pySliceTo (s : List Char) (a : Int) : List Char :=
  if 0 ≤ a then s.take a.toNat else s.take ((s.length : Int) + a).toNat

/-- Python slice `s[a:]` (negative bounds count from the end). -/
def pySliceFrom (s : List Char) (a : Int) : List Char :=
  if 0 ≤ a then s.drop a.toNat else s.drop ((s.length : Int) + a).toNat

/-- Fixed text of `_build_prompt_standard` before the query. -/
def prompt_standard_head : String :=
  "You are an exhaustive Golden Question extraction assistant for chatbot testing.\nYour task is to extract ALL POSSIBLE distinct questions that real users might ask from the provided context.\n\nCRITICAL REQUIREMENTS:\n1. Extract the MAXIMUM number of questions possible - DO NOT limit yourself\n2. NEVER hallucinate answers - use ONLY what is explicitly stated in the context\n3. Extract questions for ALL website types: e-commerce, banking, education, healthcare, etc.\n4. Cover every possible user scenario and information need\n\nGOLDEN QUESTIONS include:\n- Basic product/service information questions\n- Feature and functionality questions\n- Pricing, costs, and billing questions\n- How-to and step-by-step process questions\n- Troubleshooting and problem-solving questions\n- Account and profile management questions\n- Policy and terms questions\n- Support and contact questions\n- Availability and accessibility questions\n- Comparison and alternative questions\n- Technical specification questions\n- Usage limits and restrictions questions\n\nANSWER REQUIREMENTS:\n- Extract answers DIRECTLY from the provided context only\n- If context doesn\x27t contain a complete answer, extract what\x27s available\n- Maintain natural, conversational language\n- Keep answers concise but informative\n- Never add information not present in the context\n\nUser Query: "

/-- Fixed text of `_build_prompt_standard` between the query and the
context. -/
def prompt_standard_mid : String :=
  "\n\nReturn STRICT JSON with a top-level key `items` that is an array of objects.\nEach object must have the keys:\n- `\"question\"` → the extracted question in natural language\n- `\"expected_response\"` → the answer extracted directly from context\n\nEXTRACTION STRATEGY:\n- Be EXHAUSTIVE: Extract every possible question from the content\n- Look for explicit Q&A pairs, FAQ sections, help content\n- Infer questions from informational statements\n- Create questions for every feature, process, and detail mentioned\n- Extract questions at different complexity levels\n- Do NOT merge similar questions - extract all variations\n\nContext:\n"

/-- `_build_prompt_standard(context, query)` -/
def build_prompt_standard (context query : List Char) : List Char :=
  prompt_standard_head.data ++ query ++ prompt_standard_mid.data ++ context

/-- Fixed text of `_build_prompt_instruct` before the context. -/
def prompt_instruct_head : String :=
  "TASK: Extract golden question-answer pairs for chatbot testing.\n\nSTEP 1 - READ THE CONTEXT:\nContext:\n"

/-- Fixed text of `_build_prompt_instruct` between the context and the
query. -/
def prompt_instruct_mid : String :=
  "\n\nSTEP 2 - UNDERSTAND THE REQUIREMENT:\nUser Query: "

/-- Fixed text of `_build_prompt_instruct` after the query. -/
def prompt_instruct_tail : String :=
  "\n\nSTEP 3 - EXTRACT QUESTIONS:\nExtract EVERY possible question users might ask. Include:\n• Product/service info questions\n• Feature and how-to questions\n• Pricing and cost questions\n• Policy and terms questions\n• Support and contact questions\n• Technical specification questions\n• Troubleshooting questions\n\nSTEP 4 - EXTRACT ANSWERS:\nFor each question, extract the answer DIRECTLY from the context.\nNEVER invent information. Use ONLY what is explicitly stated.\n\nSTEP 5 - FORMAT OUTPUT:\nReturn ONLY valid JSON in this exact format:\n\x7b\n  \"items\": [\n    \x7b\"question\": \"...\", \"expected_response\": \"...\"\x7d,\n    \x7b\"question\": \"...\", \"expected_response\": \"...\"\x7d\n  ]\n\x7d\n\nRULES:\n1. Extract the MAXIMUM number of Q&A pairs\n2. Each question must be in natural language\n3. Each answer must come from the context\n4. Return ONLY the JSON object, no other text\n5. Ensure valid JSON syntax\n\nBEGIN EXTRACTION NOW:"

/-- `_build_prompt_instruct(context, query)` -/
def build_prompt_instruct (context query : List Char) : List Char :=
  prompt_instruct_head.data ++ context ++ prompt_instruct_mid.data
    ++ query ++ prompt_instruct_tail.data

/-- The `"\n\n[... content truncated ...]\n\n"` marker inserted between
the kept head and tail of a truncated context. -/
def truncation_marker : List Char := "\n\n[... content truncated ...]\n\n".data

/-- The spec's `BudgetDecision`, as far as `_select_model_and_prompt`
determines it: the chosen model, the final prompt, the system message,
and whether context truncation was applied (the source signals this via
its log messages rather than a return value). -/
structure ModelSelection where
  model : String
  prompt : List Char
  system_message : String
  truncation_applied : Bool
  deriving Repr, DecidableEq

/-- `_select_model_and_prompt(context, query)`.

Integer arithmetic is exact as in Python (values may go negative, hence
`Int`).  The two float products `int(max_context_chars * 0.7)` and
`int(max_context_chars * 0.3)` are embedded as exact
truncated-toward-zero divisions `(7*x).tdiv 10` / `(3*x).tdiv 10`; the
binary-float products Python computes can differ from these by one
character at exactly-representable boundaries, a deviation none of the
properties proved below is sensitive to. -/
def select_model_and_prompt (context query : List Char) : ModelSelection :=
  let query_tokens := count_tokens query
  let max_context_tokens_primary : Int :=
    (TOKEN_LIMIT_PRIMARY : Int) - query_tokens - 600
  let max_context_tokens_fallback : Int :=
    (TOKEN_LIMIT_FALLBACK : Int) - query_tokens - 400
  let context_tokens := count_tokens context
  if (context_tokens : Int) ≤ max_context_tokens_primary then
    { model := DEFAULT_MODEL, prompt := build_prompt_standard context query,
      system_message := "You are a careful JSON-only generator.",
      truncation_applied := false }
  else if (context_tokens : Int) ≤ max_context_tokens_fallback then
    { model := FALLBACK_MODEL, prompt := build_prompt_instruct context query,
      system_message := "You are a precise instruction-following assistant. Return only valid JSON.",
      truncation_applied := false }
  else
    let max_context_chars : Int := max_context_tokens_fallback * 2
    let truncated_context :=
      if (context.length : Int) > max_context_chars then
        let start_chars : Int := (7 * max_context_chars).tdiv 10
        let end_chars : Int := (3 * max_context_chars).tdiv 10
        pySliceTo context start_chars ++ truncation_marker
          ++ pySliceFrom context (-end_chars)
      else context
    let prompt := build_prompt_instruct truncated_context query
    let final_tokens := count_tokens prompt
    let prompt :=
      if final_tokens > TOKEN_LIMIT_FALLBACK then
        let safe_context_chars : Int :=
          ((TOKEN_LIMIT_FALLBACK : Int) - query_tokens - 400 - 200) * 2
        build_prompt_instruct (pySliceTo context safe_context_chars) query
      else prompt
    { model := FALLBACK_MODEL, prompt := prompt,
      system_message := "You are a precise instruction-following assistant. Return only valid JSON.",
      truncation_applied := decide ((context.length : Int) > max_context_chars) }

/-! ## Fetch Strategy Chain
`_validate_content_quality` and the strategy-fallback control flow of
`enhanced_scrape_url` (lines 334-398) from
`backend/enhanced_scraper.py`. -/

/-- `failure_indicators` of `_validate_content_quality`. -/
def failure_indicators : List String :=
  ["access denied", "403 forbidden", "404 not found", "500 internal server",
   "javascript required", "please enable javascript", "captcha",
   "bot detected", "access blocked", "cloudflare", "rate limited"]

/-- `_validate_content_quality(content, min_length)`: `true` when the
content passes the quality gate.  The source also returns a
human-readable reason string which is only logged; it is dropped here.
`repetition_ratio > 0.5` is embedded exactly as `2*mcf > max wc 1`. -/
def validate_content_quality (content : List Char) (min_length : Nat := 100) : Bool :=
  if content.isEmpty || (pyStrip content).length < min_length then false
  else if failure_indicators.any (fun ind => isSubstr ind.data (pyLower content)) then
    false
  else
    let words := pySplitWs content
    let mcf := mostCommonFreq (alphaLowerWords words)
    if 2 * mcf > max words.length 1 then false else true

/-- The outcome of one strategy try, before quality validation: the
strategy either produced text or raised an exception (the exception's
message is only logged by the source).  The chain in
`enhanced_scrape_url` runs, in order: the three Playwright attempts
(`networkidle`, `domcontentloaded`, `load`), then — when available —
the stealth scraper, then the plain-requests fallback; each is one
entry of the attempt list. -/
inductive FetchAttempt where
  | ok (content : List Char)
  | err
  deriving Repr, DecidableEq

/-- Whether the chain accepts an attempt: it must not have raised, and
when `validate_quality` is set its content must pass
`_validate_content_quality`. -/
def attempt_accepted (validate_quality : Bool) (min_content_length : Nat) :
    FetchAttempt → Bool
  | .ok c => !validate_quality || validate_content_quality c min_content_length
  | .err => false

/-- The exhaustion error raised when no strategy yields accepted content. -/
def chain_exhausted_message : String :=
  "All scraping strategies failed to extract quality content"

/-- The strategy-chain control flow of `enhanced_scrape_url`: walk the
attempts in priority order; an exception is logged and skipped, a
quality rejection is logged and skipped, the first accepted content is
returned (`main_content`), and only exhaustion of the whole chain
raises `ScraperError`. -/
def run_strategy_chain (validate_quality : Bool) (min_content_length : Nat) :
    List FetchAttempt → Except String (List Char)
  | [] => .error chain_exhausted_message
  | a :: rest =>
    match a with
    | .err => run_strategy_chain validate_quality min_content_length rest
    | .ok c =>
      if validate_quality then
        if validate_content_quality c min_content_length then .ok c
        else run_strategy_chain validate_quality min_content_length rest
      else .ok c

/-! ## Noise Normalizer
`aggressive_clean_text` and its helpers from
`backend/enhanced_preprocess.py`.  The 23 noise regexes of
`ContentQualityAnalyzer` are transcribed into a small regex syntax and
run by a backtracking matcher with Python's preference order (greedy
quantifiers, left-biased alternation, leftmost match, non-overlapping
substitution that continues on the original text after each match). -/

/-- Regular-expression syntax covering the noise patterns (they use no
capture groups: all are substituted by the empty string). -/
inductive RE where
  | eps
  | chr (p : Char → Bool)
  | cat (a b : RE)
  | alt (a b : RE)
  | star (a : RE)

/-- Greedy iteration for `star`: try one more body match (through
`step`) before stopping, in Python's preference order.  `fuel` bounds
the number of iterations; `reAccept` passes `s.length + 1`, which is
exact whenever the star's body consumes at least one character per
iteration — true of every pattern below (their star bodies are
single-character classes such as `\s` and `\d`). -/
def starAccept (step : List Char → List (List Char)) : Nat → List Char → List (List Char)
  | 0, s => [s]
  | fuel + 1, s => ((step s).flatMap (fun s2 => starAccept step fuel s2)) ++ [s]

/-- Backtracking matcher: the possible remaining suffixes after
matching `r` at the front of `s`, in Python's preference order (greedy
`star` first, left `alt` branch first). -/
def reAccept : RE → List Char → List (List Char)
  | .eps, s => [s]
  | .chr _, [] => []
  | .chr p, c :: rest => if p c then [rest] else []
  | .cat a b, s => (reAccept a s).flatMap (fun s2 => reAccept b s2)
  | .alt a b, s => reAccept a s ++ reAccept b s
  | .star a, s => starAccept (reAccept a) (s.length + 1) s

/-- The scanning loop of `re.sub(pattern, '', text)` for patterns that
cannot match the empty string: at each position delete the preferred
match and resume after it, else keep the character and move on.  Each
step consumes at least one character, so `s.length + 1` fuel is
exact. -/
def reScanGo (r : RE) : Nat → List Char → List Char
  | _, [] => []
  | 0, s => s
  | fuel + 1, c :: rest =>
    match (reAccept r (c :: rest)).head? with
    | some rem =>
      if rem.length < (c :: rest).length then reScanGo r fuel rem
      else c :: reScanGo r fuel rest
    | none => c :: reScanGo r fuel rest

/-- `re.sub(pattern, '', text)` for patterns that cannot match the
empty string. -/
def reScan (r : RE) (s : List Char) : List Char := reScanGo r (s.length + 1) s

/-- One case-insensitive literal character (`(?i)` is set on every
noise pattern). -/
def ciChar (c : Char) : RE := .chr (fun d => pyToLower d == pyToLower c)

/-- A case-insensitive literal string. -/
def ciLit (s : String) : RE := s.data.foldr (fun c r => .cat (ciChar c) r) .eps

/-- Concatenation of a pattern list. -/
def reSeq (rs : List RE) : RE := rs.foldr .cat .eps

/-- `\s` / `\s+` / `\s*` -/
def reWs : RE := .chr pyIsSpace

/-- `r+` -/
def rePlus (a : RE) : RE := .cat a (.star a)

/-- `r?` -/
def reOpt (a : RE) : RE := .alt a .eps

/-- `\d` -/
def reDigitC : RE := .chr pyIsDigit

/-- The date-separator class: a slash or a dash. -/
def reSlashDash : RE := .chr (fun c => c == '/' || c == '-')

/-- `\d{1,2}` -/
def reD12 : RE := .cat reDigitC (reOpt reDigitC)

/-- `\d{2,4}` -/
def reD24 : RE := reSeq [reDigitC, reDigitC, reOpt reDigitC, reOpt reDigitC]

/-- `\d{4}` -/
def reD4 : RE := reSeq [reDigitC, reDigitC, reDigitC, reDigitC]

/-- The 23 `noise_patterns` of `ContentQualityAnalyzer.__init__`, in
source order. -/
def noise_patterns : List RE :=
  [ -- home\s*>\s*products?\s*>\s*
    reSeq [ciLit "home", .star reWs, ciChar '>', .star reWs, ciLit "product",
           reOpt (ciChar 's'), .star reWs, ciChar '>', .star reWs],
    -- breadcrumb|navigation|menu|navbar
    .alt (ciLit "breadcrumb")
      (.alt (ciLit "navigation") (.alt (ciLit "menu") (ciLit "navbar"))),
    -- skip\s+to\s+(?:main\s+)?content
    reSeq [ciLit "skip", rePlus reWs, ciLit "to", rePlus reWs,
           reOpt (.cat (ciLit "main") (rePlus reWs)), ciLit "content"],
    -- back\s+to\s+top
    reSeq [ciLit "back", rePlus reWs, ciLit "to", rePlus reWs, ciLit "top"],
    -- share\s+(?:on\s+)?(?:facebook|twitter|linkedin|instagram)
    reSeq [ciLit "share", rePlus reWs, reOpt (.cat (ciLit "on") (rePlus reWs)),
           .alt (ciLit "facebook")
             (.alt (ciLit "twitter") (.alt (ciLit "linkedin") (ciLit "instagram")))],
    -- follow\s+us\s+on
    reSeq [ciLit "follow", rePlus reWs, ciLit "us", rePlus reWs, ciLit "on"],
    -- like\s+us\s+on\s+facebook
    reSeq [ciLit "like", rePlus reWs, ciLit "us", rePlus reWs, ciLit "on",
           rePlus reWs, ciLit "facebook"],
    -- copyright\s+©?\s*\d{4}
    reSeq [ciLit "copyright", rePlus reWs, reOpt (ciChar '©'), .star reWs, reD4],
    -- all\s+rights\s+reserved
    reSeq [ciLit "all", rePlus reWs, ciLit "rights", rePlus reWs, ciLit "reserved"],
    -- terms\s+(?:of\s+(?:use|service)|and\s+conditions)
    reSeq [ciLit "terms", rePlus reWs,
           .alt (reSeq [ciLit "of", rePlus reWs, .alt (ciLit "use") (ciLit "service")])
                (reSeq [ciLit "and", rePlus reWs, ciLit "conditions"])],
    -- privacy\s+policy
    reSeq [ciLit "privacy", rePlus reWs, ciLit "policy"],
    -- this\s+(?:website|site)\s+uses\s+cookies
    reSeq [ciLit "this", rePlus reWs, .alt (ciLit "website") (ciLit "site"),
           rePlus reWs, ciLit "uses", rePlus reWs, ciLit "cookies"],
    -- accept\s+(?:all\s+)?cookies
    reSeq [ciLit "accept", rePlus reWs,
           reOpt (.cat (ciLit "all") (rePlus reWs)), ciLit "cookies"],
    -- cookie\s+(?:policy|settings|preferences)
    reSeq [ciLit "cookie", rePlus reWs,
           .alt (ciLit "policy") (.alt (ciLit "settings") (ciLit "preferences"))],
    -- subscribe\s+to\s+(?:our\s+)?newsletter
    reSeq [ciLit "subscribe", rePlus reWs, ciLit "to", rePlus reWs,
           reOpt (.cat (ciLit "our") (rePlus reWs)), ciLit "newsletter"],
    -- sign\s+up\s+for\s+(?:our\s+)?(?:newsletter|updates)
    reSeq [ciLit "sign", rePlus reWs, ciLit "up", rePlus reWs, ciLit "for",
           rePlus reWs, reOpt (.cat (ciLit "our") (rePlus reWs)),
           .alt (ciLit "newsletter") (ciLit "updates")],
    -- get\s+(?:the\s+)?latest\s+(?:news|updates)
    reSeq [ciLit "get", rePlus reWs, reOpt (.cat (ciLit "the") (rePlus reWs)),
           ciLit "latest", rePlus reWs, .alt (ciLit "news") (ciLit "updates")],
    -- (?:last\s+)?updated?\s*:?\s*\d{1,2}[/-]\d{1,2}[/-]\d{2,4}
    reSeq [reOpt (.cat (ciLit "last") (rePlus reWs)), ciLit "update",
           reOpt (ciChar 'd'), .star reWs, reOpt (ciChar ':'), .star reWs,
           reD12, reSlashDash, reD12, reSlashDash, reD24],
    -- published\s*:?\s*\d{1,2}[/-]\d{1,2}[/-]\d{2,4}
    reSeq [ciLit "published", .star reWs, reOpt (ciChar ':'), .star reWs,
           reD12, reSlashDash, reD12, reSlashDash, reD24],
    -- \d+\s+(?:minute|hour|day|week|month|year)s?\s+ago
    reSeq [rePlus reDigitC, rePlus reWs,
           .alt (ciLit "minute") (.alt (ciLit "hour") (.alt (ciLit "day")
             (.alt (ciLit "week") (.alt (ciLit "month") (ciLit "year"))))),
           reOpt (ciChar 's'), rePlus reWs, ciLit "ago"],
    -- print\s+(?:this\s+)?page
    reSeq [ciLit "print", rePlus reWs,
           reOpt (.cat (ciLit "this") (rePlus reWs)), ciLit "page"],
    -- email\s+(?:this\s+)?(?:page|article)
    reSeq [ciLit "email", rePlus reWs,
           reOpt (.cat (ciLit "this") (rePlus reWs)),
           .alt (ciLit "page") (ciLit "article")],
    -- share\s+(?:this\s+)?(?:page|article)
    reSeq [ciLit "share", rePlus reWs,
           reOpt (.cat (ciLit "this") (rePlus reWs)),
           .alt (ciLit "page") (ciLit "article")] ]

/-- `ContentQualityAnalyzer.remove_noise`: substitute each pattern in
order by the empty string. -/
def remove_noise (text : List Char) : List Char :=
  noise_patterns.foldl (fun t p => reScan p t) text

/-- `re.sub(r'\r\n|\r', '\n', text)` (the alternation prefers the
two-character form, as `re` does). -/
def normalize_newlines : List Char → List Char
  | [] => []
  | '\r' :: '\n' :: rest => '\n' :: normalize_newlines rest
  | '\r' :: rest => '\n' :: normalize_newlines rest
  | c :: rest => c :: normalize_newlines rest

/-- Generic run capper for `re.sub(r'c{k,}', repl, text)`: a maximal
run of at least `threshold` copies of `ch` becomes `repl`; shorter runs
are kept.  `run` counts the pending run. -/
def cap_char_runs_go (ch : Char) (threshold : Nat) (repl : List Char) :
    Nat → List Char → List Char
  | run, [] => if threshold ≤ run then repl else List.replicate run ch
  | run, c :: rest =>
    if c == ch then cap_char_runs_go ch threshold repl (run + 1) rest
    else
      (if threshold ≤ run then repl else List.replicate run ch)
        ++ c :: cap_char_runs_go ch threshold repl 0 rest

/-- `re.sub(r'c{k,}', repl, text)` for a single-character class. -/
def cap_char_runs (ch : Char) (threshold : Nat) (repl : List Char)
    (s : List Char) : List Char :=
  cap_char_runs_go ch threshold repl 0 s

/-- `re.sub(r'[ \t]{3,}', '  ', text)`: runs of three or more spaces
and tabs become two spaces; shorter runs are kept verbatim. -/
def cap_space_tab_go : List Char → List Char → List Char
  | run, [] => if 3 ≤ run.length then [' ', ' '] else run
  | run, c :: rest =>
    if c == ' ' || c == '\t' then cap_space_tab_go (run ++ [c]) rest
    else
      (if 3 ≤ run.length then [' ', ' '] else run) ++ c :: cap_space_tab_go [] rest

/-- `re.sub(r'[ \t]{3,}', '  ', text)` -/
def cap_space_tab_runs (s : List Char) : List Char := cap_space_tab_go [] s

/-- `re.sub(r'\b(\w)\s+(\w)\b', r'\1\2', text)`: a single-character
word, whitespace, then another single-character word collapse into two
adjacent characters; scanning resumes after the second character as
`re.sub` does (matching always against the original text). -/
def fix_broken_words_go (prev : Option Char) : Nat → List Char → List Char
  | _, [] => []
  | 0, s => s
  | fuel + 1, c :: rest =>
    let boundaryBefore := match prev with | none => true | some p => !pyIsWordChar p
    if pyIsWordChar c && boundaryBefore then
      if (rest.takeWhile pyIsSpace).isEmpty then
        c :: fix_broken_words_go (some c) fuel rest
      else
        match rest.dropWhile pyIsSpace with
        | c2 :: rest2 =>
          if pyIsWordChar c2
              && (match rest2 with | [] => true | d :: _ => !pyIsWordChar d) then
            c :: c2 :: fix_broken_words_go (some c2) fuel rest2
          else c :: fix_broken_words_go (some c) fuel rest
        | [] => c :: fix_broken_words_go (some c) fuel rest
    else c :: fix_broken_words_go (some c) fuel rest

/-- `re.sub(r'\b(\w)\s+(\w)\b', r'\1\2', text)` with the scan started
at the front (`prev = none`); every step consumes at least one
character, so `s.length + 1` fuel is exact. -/
def fix_broken_words (prev : Option Char) (s : List Char) : List Char :=
  fix_broken_words_go prev (s.length + 1) s

/-- The punctuation class of `re.sub(r'\s+([.!?,:;])', r'\1', ...)`. -/
def isTightPunct (c : Char) : Bool :=
  c == '.' || c == '!' || c == '?' || c == ',' || c == ':' || c == ';'

/-- `re.sub(r'\s+([.!?,:;])', r'\1', text)`: a whitespace run directly
followed by one of the punctuation marks loses the whitespace. -/
def fix_space_before_punct_go : Nat → List Char → List Char
  | _, [] => []
  | 0, s => s
  | fuel + 1, c :: rest =>
    if pyIsSpace c then
      match rest.dropWhile pyIsSpace with
      | p :: rest2 =>
        if isTightPunct p then p :: fix_space_before_punct_go fuel rest2
        else (c :: rest.takeWhile pyIsSpace)
          ++ fix_space_before_punct_go fuel (rest.dropWhile pyIsSpace)
      | [] => c :: rest.takeWhile pyIsSpace
    else c :: fix_space_before_punct_go fuel rest

/-- `re.sub(r'\s+([.!?,:;])', r'\1', text)`; every step consumes at
least one character, so `s.length + 1` fuel is exact. -/
def fix_space_before_punct (s : List Char) : List Char :=
  fix_space_before_punct_go (s.length + 1) s

/-- `re.sub(r'([.!?])\s*([A-Z])', r'\1 \2', text)`: sentence-ending
punctuation followed by optional whitespace and an uppercase letter is
normalised to exactly one separating space; scanning resumes after the
letter. -/
def fix_punct_upper_go : Nat → List Char → List Char
  | _, [] => []
  | 0, s => s
  | fuel + 1, c :: rest =>
    if c == '.' || c == '!' || c == '?' then
      match rest.dropWhile pyIsSpace with
      | u :: rest2 =>
        if pyIsUpperChar u then c :: ' ' :: u :: fix_punct_upper_go fuel rest2
        else c :: fix_punct_upper_go fuel rest
      | [] => c :: fix_punct_upper_go fuel rest
    else c :: fix_punct_upper_go fuel rest

/-- `re.sub(r'([.!?])\s*([A-Z])', r'\1 \2', text)`; every step
consumes at least one character, so `s.length + 1` fuel is exact. -/
def fix_punct_upper (s : List Char) : List Char :=
  fix_punct_upper_go (s.length + 1) s

/-- `re.sub(r'\s+', ' ', line)` of `_clean_line`. -/
def collapse_ws_go : Bool → List Char → List Char
  | _, [] => []
  | inRun, c :: rest =>
    if pyIsSpace c then
      if inRun then collapse_ws_go true rest
      else ' ' :: collapse_ws_go true rest
    else c :: collapse_ws_go false rest

/-- `re.sub(r'\s+', ' ', line)` -/
def collapse_ws (s : List Char) : List Char := collapse_ws_go false s

/-- `noise_indicators` of `_is_noise_line`. -/
def noise_indicators : List String :=
  ["javascript", "cookie", "gdpr", "accept all",
   "skip to", "back to top", "print page",
   "share on", "follow us", "subscribe",
   "copyright", "all rights reserved",
   "terms of use", "privacy policy"]

/-- `_is_noise_line(line)`.  `re.match(r'^[\W\d\s]*$', ...)` holds
exactly when the line has no letter and no underscore; the
character-diversity test `len(set(l))/len(l) < 0.3` is embedded as
`10 * distinct < 3 * len`. -/
def is_noise_line (line : List Char) : Bool :=
  let ll := pyStrip (pyLower line)
  if ll.length < 3 then true
  else if ll.all (fun c => !(pyIsAlphaChar c || c == '_')) then true
  else if noise_indicators.any (fun ind => isSubstr ind.data ll) then true
  else if 10 * ll.dedup.length < 3 * ll.length ∧ ll.length > 10 then true
  else false

/-- `_clean_line(line)`. -/
def clean_line (line : List Char) : List Char :=
  let l1 := cap_char_runs '.' 3 "...".data line
  let l2 := cap_char_runs '!' 2 "!".data l1
  let l3 := cap_char_runs '?' 2 "?".data l2
  let l4 := collapse_ws l3
  -- re.sub(r'^[^\w\s]*', '', line): strip the leading run outside \w and \s
  let l5 := l4.dropWhile (fun c => !(pyIsWordChar c || pyIsSpace c))
  -- re.sub(r'[^\w\s.!?]*$', '', line): strip the trailing run outside the class
  let l6 := dropTrailWhile
    (fun c => !(pyIsWordChar c || pyIsSpace c || c == '.' || c == '!' || c == '?')) l5
  pyStrip l6

/-- Step 5 of `aggressive_clean_text` (lines 166-183): strip each
line; keep blank lines as `''`; drop noise lines; clean the rest and
keep them when longer than 2 characters. -/
def process_line_list (lines : List (List Char)) : List (List Char) :=
  lines.foldr
    (fun l acc =>
      let line := pyStrip l
      if line.isEmpty then [] :: acc
      else if is_noise_line line then acc
      else
        let cl := clean_line line
        if ¬cl.isEmpty ∧ cl.length > 2 then cl :: acc else acc)
    []

/-- Step 6 of `aggressive_clean_text` (lines 186-199): allow at most
two consecutive blank lines and drop a line equal to the previous
kept non-blank line (the previous-line marker is not reset by blank
lines, exactly as in the source). -/
def dedupe_go : Option (List Char) → Nat → List (List Char) → List (List Char)
  | _, _, [] => []
  | prev, empty_count, l :: rest =>
    if (pyStrip l).isEmpty then
      if empty_count + 1 ≤ 2 then l :: dedupe_go prev (empty_count + 1) rest
      else dedupe_go prev (empty_count + 1) rest
    else
      if prev = some l then dedupe_go prev 0 rest
      else l :: dedupe_go (some l) 0 rest

/-- Case-insensitive prefix test. -/
def ciIsPrefix : List Char → List Char → Bool
  | [], _ => true
  | _ :: _, [] => false
  | k :: ks, c :: cs => pyToLower c == pyToLower k && ciIsPrefix ks cs

/-- `re.search(r'\b(?:kw1|kw2|...)\b', line, re.I)` for a list of
single-word keywords: some keyword occurs with a word boundary on both
sides. -/
def contains_word_ci_go (kws : List (List Char)) : Option Char → List Char → Bool
  | _, [] => false
  | prev, c :: rest =>
    let boundaryBefore := match prev with | none => true | some p => !pyIsWordChar p
    (boundaryBefore
      && kws.any (fun kw =>
           ciIsPrefix kw (c :: rest)
             && (match (c :: rest).drop kw.length with
                 | [] => true
                 | d :: _ => !pyIsWordChar d)))
      || contains_word_ci_go kws (some c) rest

/-- `re.search(r'\b(?:...)\b', line, re.I)` -/
def contains_word_ci (kws : List (List Char)) (line : List Char) : Bool :=
  contains_word_ci_go kws none line

/-- The interrogative keywords of `_salvage_low_quality_content`. -/
def salvage_keywords : List (List Char) :=
  ["what".data, "how".data, "why".data, "when".data, "where".data, "who".data,
   "can".data, "is".data, "are".data, "do".data, "does".data, "will".data]

/-- `_salvage_low_quality_content(text)`: keep only stripped non-empty
lines that contain an interrogative keyword, a question mark, or more
than 5 words. -/
def salvage_low_quality_content (text : List Char) : List Char :=
  joinChar '\n'
    ((pySplitChar '\n' text).foldr
      (fun l acc =>
        let line := pyStrip l
        if line.isEmpty then acc
        else if contains_word_ci salvage_keywords line
                || line.contains '?'
                || (pySplitWs line).length > 5 then line :: acc
        else acc)
      [])

/-- `aggressive_clean_text(text)`.

Step 1 of the source is `unicodedata.normalize('NFKD', text)`, an
external collaborator that is the identity on ASCII text; it is
embedded as the identity (the development treats ASCII inputs, where
this is exact). -/
def aggressive_clean_text (text : List Char) : List Char :=
  if text.isEmpty then []
  else
    let t2 := remove_noise text
    let t3 := normalize_newlines t2
    let t4 := cap_char_runs '\n' 4 "\n\n\n".data t3
    let t5 := cap_space_tab_runs t4
    let t6 := fix_broken_words none t5
    let t7 := fix_space_before_punct t6
    let t8 := fix_punct_upper t7
    let lines := process_line_list (pySplitChar '\n' t8)
    let final_lines := dedupe_go none 0 lines
    let result := pyStrip (joinChar '\n' final_lines)
    if (analyze_content_quality result).quality_score < 30 then
      salvage_low_quality_content result
    else result

/-- The non-whitespace character count of a text, used to state what a
"whitespace-only" shrink would preserve. -/
def nonWsCount (s : List Char) : Nat :=
  (s.filter (fun c => !pyIsSpace c)).length

/-! ## Chunker
`enhanced_chunk_text` and its helpers from
`backend/enhanced_preprocess.py`. -/

/-- The `[.!?]` class of `re.split(r'[.!?]+', ...)`. -/
def isSentencePunct (c : Char) : Bool := c = '.' || c = '!' || c = '?'

/-- `re.split(r'[.!?]+', text)`: split on maximal runs of sentence
punctuation, keeping empty pieces at the boundaries. -/
def pySplitPunctRuns : List Char → List (List Char)
  | [] => [[]]
  | c :: rest =>
    let tailSplit := pySplitPunctRuns rest
    if isSentencePunct c then
      match rest with
      | d :: _ => if isSentencePunct d then tailSplit else [] :: tailSplit
      | [] => [] :: tailSplit
    else
      match tailSplit with
      | [] => [[c]]
      | w :: ws => (c :: w) :: ws

/-- Python `str.isupper()` on ASCII text: at least one cased character
and no lowercase character. -/
def pyIsUpper (s : List Char) : Bool :=
  s.any (fun c => pyIsUpperChar c || pyIsLowerChar c)
    && s.all (fun c => !pyIsLowerChar c)

/-- `re.match(r'^\d+\.', line)`: one or more digits then a dot, at the
start. -/
def startsWithNumberedDot (s : List Char) : Bool :=
  match s with
  | c :: _ =>
    pyIsDigit c &&
      (match s.dropWhile pyIsDigit with
       | '.' :: _ => true
       | _ => false)
  | [] => false

/-- Python `line.endswith(':')`. -/
def pyEndsWithColon (s : List Char) : Bool :=
  match s.getLast? with
  | some c => c = ':'
  | none => false

/-- `_is_section_boundary(line)`. -/
def is_section_boundary (line : List Char) : Bool :=
  if line.isEmpty then false
  else if pyStarts "HEADING:".data line then true
  else if pyStarts "Q&A:".data line then true
  else if line.length < 100
          && (pyIsUpper line || startsWithNumberedDot line || pyEndsWithColon line)
  then true
  else false

/-- `sep.join(pieces)` for a multi-character separator. -/
def joinList (sep : List Char) : List (List Char) → List Char
  | [] => []
  | [x] => x
  | x :: rest => x ++ sep ++ joinList sep rest

/-- `'. '.join(current_chunk) + '.'`, the sentence-chunk assembly used
by both sentence-driven splitters. -/
def joinDotSpace (pieces : List (List Char)) : List Char :=
  joinList ". ".data pieces ++ ['.']

/-- The section builder of `_structure_aware_chunking` (lines 330-350):
strip each line; a section-boundary line flushes the current section;
non-empty lines are appended to the current section; a final non-empty
section is flushed at the end. -/
def sections_go : List (List Char) → List (List Char) → List (List Char)
  | [], current => if current.isEmpty then [] else [joinChar '\n' current]
  | l :: rest, current =>
    let line := pyStrip l
    if is_section_boundary line then
      let flushed := if current.isEmpty then [] else [joinChar '\n' current]
      let current' := if line.isEmpty then [] else [line]
      flushed ++ sections_go rest current'
    else
      let current' := if line.isEmpty then current else current ++ [line]
      sections_go rest current'

/-- The sentence-accumulation loop of `_split_large_section`
(lines 396-424).  The tokenizer branch of that function calls
`_token_chunk_section`, a name that does not exist anywhere in the
repository; the resulting `NameError` is swallowed by the bare
`except: pass`, so this sentence-based path always runs. -/
def split_section_go (chunk_size : Nat) :
    List (List Char) → List (List Char) → Nat → List (List Char)
  | [], current, _ => if current.isEmpty then [] else [joinDotSpace current]
  | sraw :: rest, current, current_length =>
    let sentence := pyStrip sraw
    if sentence.isEmpty then split_section_go chunk_size rest current current_length
    else
      let sl := sentence.length
      if current_length + sl > chunk_size * 4 ∧ ¬current.isEmpty then
        let overlap :=
          if current.length > 2 then current.drop (current.length - 2) else current
        let current' := overlap ++ [sentence]
        joinDotSpace current
          :: split_section_go chunk_size rest current' ((current'.map List.length).sum)
      else split_section_go chunk_size rest (current ++ [sentence]) (current_length + sl)

/-- `_split_large_section(section, chunk_size, chunk_overlap)` (the
`chunk_overlap` argument is unused on the reachable sentence path; the
overlap carried is the last one or two sentences). -/
def split_large_section (sect : List Char) (chunk_size _chunk_overlap : Nat) :
    List (List Char) :=
  split_section_go chunk_size (pySplitPunctRuns sect) [] 0

/-- `_structure_aware_chunking(text, chunk_size, chunk_overlap)`. -/
def structure_aware_chunking (text : List Char) (chunk_size chunk_overlap : Nat) :
    List (List Char) :=
  let sections := sections_go (pySplitChar '\n' text) []
  sections.flatMap (fun sect =>
    if sect.length ≤ chunk_size * 4 then [sect]
    else split_large_section sect chunk_size chunk_overlap)

/-- The tokenizer collaborator (§6): `encode` stands for
`tokenizer.encode(text, add_special_tokens=False, truncation=True)`
(truncation included) and `decode` for
`tokenizer.decode(tokens, skip_special_tokens=True)`.  Both are modelled
as total functions, so the source's per-call exception handlers have no
failing branch to take. -/
structure Tokenizer where
  encode : List Char → List Nat
  decode : List Nat → List Char

/-- The sliding-window loop of `_token_chunk_piece` (lines 465-488).
`fuel` bounds the iteration count; with `chunk_overlap < chunk_size`
the loop advances by at least one token per step, so
`tokens.length + 2` fuel is exact; when `chunk_overlap ≥ chunk_size`
the Python loop never terminates, which the model renders as running
out of fuel. -/
def token_chunk_go (tok : Tokenizer) (tokens : List Nat)
    (chunk_size chunk_overlap : Nat) : Nat → Nat → List (List Char)
  | 0, _ => []
  | fuel + 1, start =>
    let n := tokens.length
    let e := min (start + chunk_size) n
    let chunk_text := pyStrip (tok.decode ((tokens.drop start).take (e - start)))
    let acc := if ¬chunk_text.isEmpty ∧ chunk_text.length > 10 then [chunk_text] else []
    if e = n then acc
    else acc ++ token_chunk_go tok tokens chunk_size chunk_overlap fuel (e - chunk_overlap)

/-- `_token_chunk_piece(text, chunk_size, chunk_overlap)`. -/
def token_chunk_piece (tok : Tokenizer) (text : List Char)
    (chunk_size chunk_overlap : Nat) : List (List Char) :=
  let tokens := tok.encode text
  if tokens.isEmpty then []
  else token_chunk_go tok tokens chunk_size chunk_overlap (tokens.length + 2) 0

/-- `[text[i:i+3000] for i in range(0, len(text), 3000)]` — the
3000-character pieces of `_enhanced_token_chunking`. -/
def split_into_pieces : List Char → List (List Char)
  | [] => []
  | c :: rest => ((c :: rest).take 3000) :: split_into_pieces ((c :: rest).drop 3000)
termination_by l => l.length
decreasing_by simp; omega

/-- The character-accumulation loop of `_character_based_chunking`
(lines 496-522): like the sentence splitter, but chunks shorter than
`min_chunk_size` are dropped and the carried state resets to just the
new sentence. -/
def char_chunk_go (chunk_size min_chunk_size : Nat) :
    List (List Char) → List (List Char) → Nat → List (List Char)
  | [], current, _ =>
    if current.isEmpty then []
    else
      let ct := joinDotSpace current
      if min_chunk_size ≤ ct.length then [ct] else []
  | sraw :: rest, current, current_length =>
    let sentence := pyStrip sraw
    if sentence.isEmpty then
      char_chunk_go chunk_size min_chunk_size rest current current_length
    else
      let sl := sentence.length
      if current_length + sl > chunk_size ∧ ¬current.isEmpty then
        let ct := joinDotSpace current
        (if min_chunk_size ≤ ct.length then [ct] else [])
          ++ char_chunk_go chunk_size min_chunk_size rest [sentence] sl
      else
        char_chunk_go chunk_size min_chunk_size rest (current ++ [sentence])
          (current_length + sl)

/-- `_character_based_chunking(text, chunk_size, min_chunk_size)`. -/
def character_based_chunking (text : List Char) (chunk_size min_chunk_size : Nat) :
    List (List Char) :=
  char_chunk_go chunk_size min_chunk_size (pySplitPunctRuns text) [] 0

/-- `_validate_and_filter_chunks(chunks, min_chunk_size)`: keep the
stripped chunks that are long enough and score strictly above the
quality floor of 20. -/
def validate_and_filter_chunks (chunks : List (List Char)) (min_chunk_size : Nat) :
    List (List Char) :=
  chunks.foldr
    (fun chunk acc =>
      let c := pyStrip chunk
      if c.isEmpty ∨ c.length < min_chunk_size then acc
      else if (analyze_content_quality c).quality_score > 20 then c :: acc
      else acc)
    []

/-- `_enhanced_token_chunking(text, chunk_size, chunk_overlap,
min_chunk_size)`: texts over 3000 characters are chunked piecewise and
the result validated; shorter texts return the raw window chunks with
no validation. -/
def enhanced_token_chunking (tok : Tokenizer) (text : List Char)
    (chunk_size chunk_overlap min_chunk_size : Nat) : List (List Char) :=
  if text.length > 3000 then
    validate_and_filter_chunks
      ((split_into_pieces text).flatMap
        (fun piece => token_chunk_piece tok piece chunk_size chunk_overlap))
      min_chunk_size
  else token_chunk_piece tok text chunk_size chunk_overlap

/-- `enhanced_chunk_text(text, chunk_size=800, chunk_overlap=100,
min_chunk_size=50, preserve_structure=True)`.  The module-level
`tokenizer` global is passed explicitly (`none` when the import-time
load failed). -/
def enhanced_chunk_text (tok : Option Tokenizer) (text : List Char)
    (chunk_size : Nat := 800) (chunk_overlap : Nat := 100)
    (min_chunk_size : Nat := 50) (preserve_structure : Bool := true) :
    List (List Char) :=
  if text.isEmpty then []
  else
    let quality := analyze_content_quality text
    let cs := if quality.quality_score < 50 then min chunk_size 500 else chunk_size
    let co := if quality.quality_score < 50 then min chunk_overlap 50 else chunk_overlap
    let fallback :=
      match tok with
      | some t => enhanced_token_chunking t text cs co min_chunk_size
      | none => character_based_chunking text (cs * 4) min_chunk_size
    if preserve_structure then
      let structured_chunks := structure_aware_chunking text cs co
      if ¬structured_chunks.isEmpty then
        validate_and_filter_chunks structured_chunks min_chunk_size
      else fallback
    else fallback

/-! ## Crawl Frontier
The crawl loop of `enhanced_scrape_url` (lines 404-455) from
`backend/enhanced_scraper.py`, embedded as a small-step state machine:
one `crawl_step` is one iteration of the `while` loop, so the claims
about "every point during the crawl" quantify over the iterates. -/

/-- The crawl's collaborators and parameters.  `netloc` stands for
`urlparse(u).netloc` and `resolve`d absolute links are what the
`urljoin`-over-`soup.find_all('a')` block yields, both external
library calls; `fetch_page` is `_fallback_requests_scraper` (`none` =
the call raised); `page_links` is the best-effort link extraction for
a crawled page (`none` = its `requests.get`/parse raised, in which
case the bare `except: pass` leaves the frontier unchanged). -/
structure CrawlConfig where
  seed_url : List Char
  main_content : List Char
  first_page_links : List (List Char)
  max_depth : Nat
  max_pages : Nat
  same_domain_only : Bool
  netloc : List Char → List Char
  fetch_page : List Char → Option (List Char)
  page_links : List Char → Option (List (List Char))

/-- The mutable state of the crawl loop.  `visited` keeps insertion
order (Python's `set` membership is what the code tests; insertion
order is irrelevant to membership and size).  `fetched` logs every
`(url, depth)` for which a network fetch was issued, seed included. -/
structure CrawlState where
  frontier : List (List Char × Nat)
  visited : List (List Char)
  aggregated : List (List Char)
  fetched : List (List Char × Nat)

/-- Seeding (lines 405-413): the visited set starts as `{url}`, the
aggregate as `[main_content]`, and the frontier is seeded — without
any cap — with every non-empty `first_page_links` entry that starts
with `"http"`, at depth 1.  The seed page itself was fetched by the
strategy chain (depth 0). -/
def crawl_init (cfg : CrawlConfig) : CrawlState :=
  { frontier :=
      (cfg.first_page_links.filter
        (fun l => !l.isEmpty && pyStarts "http".data l)).map (fun l => (l, 1))
    visited := [cfg.seed_url]
    aggregated := [cfg.main_content]
    fetched := [(cfg.seed_url, 0)] }

/-- The per-link enqueue block (lines 441-449): keep only absolute
`http` links, and append at `depth+1` only when the link is unvisited,
`len(visited) + len(frontier) < max_pages`, and the new depth is within
`max_depth`. -/
def enqueue_links (cfg : CrawlConfig) (visited : List (List Char)) (depth : Nat)
    (links : List (List Char)) (frontier : List (List Char × Nat)) :
    List (List Char × Nat) :=
  links.foldl
    (fun f link =>
      if !pyStarts "http".data link then f
      else if link ∉ visited ∧ visited.length + f.length < cfg.max_pages
              ∧ depth + 1 ≤ cfg.max_depth then
        f ++ [(link, depth + 1)]
      else f)
    frontier

/-- One iteration of the crawl `while` loop (lines 416-451): pop FIFO;
skip visited, off-domain and out-of-depth entries; otherwise insert
into the visited set, fetch the page (an exception skips the rest of
the iteration), append non-empty text to the aggregate, and enqueue
the page's outbound links.  When the loop guard
(`frontier and len(visited) < max_pages`) fails, the state is final and
returned unchanged. -/
def crawl_step (cfg : CrawlConfig) (s : CrawlState) : CrawlState :=
  if s.frontier.isEmpty ∨ ¬ s.visited.length < cfg.max_pages then s
  else
    match s.frontier with
    | [] => s
    | (current_url, depth) :: rest =>
      if current_url ∈ s.visited then { s with frontier := rest }
      else if cfg.same_domain_only
              ∧ cfg.netloc current_url ≠ cfg.netloc cfg.seed_url then
        { s with frontier := rest }
      else if cfg.max_depth < depth then { s with frontier := rest }
      else
        let visited' := s.visited ++ [current_url]
        let fetched' := s.fetched ++ [(current_url, depth)]
        match cfg.fetch_page current_url with
        | none => { s with frontier := rest, visited := visited', fetched := fetched' }
        | some text =>
          let aggregated' :=
            if !text.isEmpty then s.aggregated ++ [text] else s.aggregated
          let links := (cfg.page_links current_url).getD []
          { frontier := enqueue_links cfg visited' depth links rest
            visited := visited'
            aggregated := aggregated'
            fetched := fetched' }

/-- The crawl state after `n` loop iterations. -/
def crawl_iter (cfg : CrawlConfig) : Nat → CrawlState
  | 0 => crawl_init cfg
  | n + 1 => crawl_step cfg (crawl_iter cfg n)

/-- A crawl configuration with `max_pages = 0`: the seed is in the
visited set before the loop runs, so the visited set already exceeds
the budget. -/
def zero_budget_config : CrawlConfig :=
  { seed_url := "http://example.com/".data
    main_content := "seed text".data
    first_page_links := []
    max_depth := 1
    max_pages := 0
    same_domain_only := false
    netloc := fun _ => []
    fetch_page := fun _ => none
    page_links := fun _ => none }

/-- A crawl configuration whose seed page exposes two links while the
page budget is 1: seeding is uncapped, so the frontier starts with 2
entries. -/
def two_link_config : CrawlConfig :=
  { seed_url := "http://example.com/".data
    main_content := "seed text".data
    first_page_links := ["http://example.com/a".data, "http://example.com/b".data]
    max_depth := 1
    max_pages := 1
    same_domain_only := false
    netloc := fun _ => []
    fetch_page := fun _ => none
    page_links := fun _ => none }

/-- A small crawl that really fetches one linked page at depth 1. -/
def one_page_config : CrawlConfig :=
  { seed_url := "http://example.com/".data
    main_content := "seed text".data
    first_page_links := ["http://example.com/a".data]
    max_depth := 1
    max_pages := 5
    same_domain_only := false
    netloc := fun _ => []
    fetch_page := fun _ => some "page text".data
    page_links := fun _ => some [] }

/-! ### Facts about the Budget Selector -/

/-- Lengths of the fixed pieces of the instruct prompt template. -/
theorem prompt_instruct_piece_lengths :
    prompt_instruct_head.data.length = 101
    ∧ prompt_instruct_mid.data.length = 51
    ∧ prompt_instruct_tail.data.length = 890 := by
  refine ⟨?_, ?_, ?_⟩ <;> rfl

/-- Length of a built instruct prompt. -/
theorem build_prompt_instruct_length (context query : List Char) :
    (build_prompt_instruct context query).length
      = 1042 + context.length + query.length := by
  have h := prompt_instruct_piece_lengths
  simp [build_prompt_instruct, h.1, h.2.1, h.2.2]
  omega

/-- `s[:a]` never yields more than `a` characters when `0 ≤ a`. -/
theorem pySliceTo_length_le (s : List Char) (a : Int) (ha : 0 ≤ a) :
    (pySliceTo s a).length ≤ a.toNat := by
  simp [pySliceTo, ha]

/-- Core of the C3 counterexample: with a 24,002-character context
(12,001 estimated tokens, over the fallback ceiling) and a
24,000-character query (12,000 estimated tokens), the selector's final
prompt estimates to 23,922 tokens: the first truncation leaves the
prompt over budget, and the aggressive head-only truncation cannot
help because the query itself is never truncated. -/
theorem select_large_query_overflow (context query : List Char)
    (hc : context.length = 24002) (hq : query.length = 24000) :
    12000 < count_tokens (select_model_and_prompt context query).prompt := by
  have hct : count_tokens context = 12001 := by rw [count_tokens, hc]
  have hqt : count_tokens query = 12000 := by rw [count_tokens, hq]
  simp only [select_model_and_prompt, TOKEN_LIMIT_PRIMARY, TOKEN_LIMIT_FALLBACK,
    hct, hqt, hc]
  norm_num
  have h1 : Int.tdiv 5600 10 = 560 := by decide
  have h2 : Int.tdiv 2400 10 = 240 := by decide
  rw [h1, h2]
  have hTo : (pySliceTo context (-560)).length = 23442 := by
    simp [pySliceTo, hc]
  have hFrom : (pySliceFrom context 240).length = 23762 := by
    simp [pySliceFrom, hc]
  have hTo2 : (pySliceTo context (-1200)).length = 22802 := by
    simp [pySliceTo, hc]
  have hft : count_tokens (build_prompt_instruct
      (pySliceTo context (-560) ++ (truncation_marker ++ pySliceFrom context 240))
      query) = 36138 := by
    rw [count_tokens, build_prompt_instruct_length]
    simp [hTo, hFrom, hq]
    rfl
  rw [hft]
  norm_num
  rw [count_tokens, build_prompt_instruct_length, hTo2, hq]
  decide

/-! ### Facts about the scorer -/

/-- `dropWhile` of a list all of whose elements satisfy the predicate. -/
theorem dropWhile_all_eq_nil (p : Char → Bool) (t : List Char)
    (h : ∀ c ∈ t, p c = true) : t.dropWhile p = [] := by
  induction t with
  | nil => simp
  | cons c r ih =>
    have hc := h c (by simp)
    simp only [List.dropWhile, hc]
    exact ih (fun x hx => h x (by simp [hx]))

/-- Splitting an all-whitespace string on whitespace yields no words. -/
theorem pySplitWs_all_space (t : List Char)
    (h : ∀ c ∈ t, pyIsSpace c = true) : pySplitWs t = [] := by
  unfold pySplitWs
  induction t with
  | nil => simp [pySplitWsAux]
  | cons c r ih =>
    have hc := h c (by simp)
    simp only [pySplitWsAux, hc, if_true, List.isEmpty]
    exact ih (fun x hx => h x (by simp [hx]))

/-- Stripping an all-whitespace string yields the empty string. -/
theorem pyStrip_all_space (t : List Char)
    (h : ∀ c ∈ t, pyIsSpace c = true) : pyStrip t = [] := by
  unfold pyStrip dropTrailWhile
  rw [dropWhile_all_eq_nil pyIsSpace t h]
  simp

/-- On nonempty all-whitespace input: no words, no non-blank lines, so
only the length checks and the vacuous repetition bonus fire. -/
theorem analyze_all_space (t : List Char) (hlen : 0 < t.length)
    (hws : ∀ c ∈ t, pyIsSpace c = true) :
    (analyze_content_quality t).quality_score
        = (if t.length < 100 then 0 else if t.length > 500 then 20 else 0) + 25
    ∧ (analyze_content_quality t).issues
        = (if t.length < 100 then ["Content too short"] else []) := by
  have hne : t.isEmpty = false := by
    cases t with
    | nil => simp at hlen
    | cons c r => simp [List.isEmpty]
  have hwords : pySplitWs t = [] := pySplitWs_all_space t hws
  have hstrip : pyStrip t = [] := pyStrip_all_space t hws
  unfold analyze_content_quality
  rw [hne]
  simp only [Bool.false_eq_true, if_false, hwords, hstrip]
  simp [alphaLowerWords, mostCommonFreq, pySplitChar, pyStrip, dropTrailWhile]
  split_ifs <;> simp_all

/-! ## Claim theorems -/

/-- C1: for every input text, `analyze_content_quality` returns a
`quality_score` in `[0, 100]`, and for empty input it returns score
exactly `0` with the "Empty content" issue.  The function is a plain
total Lean function, hence deterministic, side-effect free and
non-throwing by construction. -/
theorem c1_quality_score_bounds :
    (∀ text : List Char,
        0 ≤ (analyze_content_quality text).quality_score
        ∧ (analyze_content_quality text).quality_score ≤ 100)
    ∧ (analyze_content_quality []).quality_score = 0
    ∧ (analyze_content_quality []).issues = ["Empty content"] := by
  refine ⟨fun text => ⟨Nat.zero_le _, ?_⟩, by decide, by decide⟩
  unfold analyze_content_quality
  split
  · simp
  · exact Nat.min_le_right _ _

/-- C7 counterexample: a text of exactly 500 characters does NOT get the
+20 length bonus (the code tests `char_count > 500`, strictly): on 500
copies of `'a'` the code scores 30, while the claim's additive formula
(with its `≥ 500` threshold) yields 50. -/
theorem c7_length_threshold_counterexample :
    (analyze_content_quality (List.replicate 500 'a')).quality_score = 30
    ∧ claim_additive_score (List.replicate 500 'a') = 50
    ∧ (30 : Nat) ≠ 50 := by
  refine ⟨?_, ?_, by decide⟩ <;> decide

/-- C7 (amended): the quality score equals the sum of the five
independent bonuses capped at 100, with the length bonus granted for
strictly more than 500 characters (so a text of exactly 500 characters
does not receive it); the other four bonuses are as the claim states. -/
theorem c7_additive_score (t : List Char) (ht : t ≠ []) :
    (analyze_content_quality t).quality_score
      = min (spec_length_bonus t + spec_diversity_bonus t
             + spec_repetition_bonus t + spec_line_bonus t
             + spec_avg_word_bonus t) 100 := by
  have hne : t.isEmpty = false := by simpa [List.isEmpty_iff] using ht
  unfold analyze_content_quality spec_length_bonus spec_diversity_bonus
    spec_repetition_bonus spec_line_bonus spec_avg_word_bonus
  rw [hne]
  simp only [Bool.false_eq_true, if_false]
  split_ifs <;> first | rfl | omega

/-- C7 witness: the amended additive characterisation applied to the
concrete text `"hi"`. -/
theorem c7_additive_score_witness :
    (analyze_content_quality "hi".data).quality_score
      = min (spec_length_bonus "hi".data + spec_diversity_bonus "hi".data
             + spec_repetition_bonus "hi".data + spec_line_bonus "hi".data
             + spec_avg_word_bonus "hi".data) 100 :=
  c7_additive_score "hi".data (by decide)

/-- C9 counterexample: a whitespace-only text of 501 characters scores
45 (the `> 500` length bonus fires on whitespace too), not 25, and its
issues list is empty rather than reporting the content as too short. -/
theorem c9_whitespace_501_counterexample :
    (List.replicate 501 ' ').all pyIsSpace = true
    ∧ (List.replicate 501 ' ').length ≠ 0
    ∧ (analyze_content_quality (List.replicate 501 ' ')).quality_score = 45
    ∧ (analyze_content_quality (List.replicate 501 ' ')).issues = [] := by
  refine ⟨by decide, by simp, ?_, ?_⟩
  · have h := analyze_all_space (List.replicate 501 ' ') (by simp)
      (fun c hc => by rw [List.eq_of_mem_replicate hc]; decide)
    rw [h.1]; simp
  · have h := analyze_all_space (List.replicate 501 ' ') (by simp)
      (fun c hc => by rw [List.eq_of_mem_replicate hc]; decide)
    rw [h.2]; simp

/-- C9 (amended): for every non-empty whitespace-only text of fewer
than 100 characters, the score is exactly 25 (only the repetition bonus
fires, since with no alphabetic words the most-common frequency is 0)
and the issues list is exactly ["Content too short"].  Whitespace-only
texts of 100–500 characters also score 25 but with no issue, and
longer ones additionally collect the +20 length bonus. -/
theorem c9_short_whitespace_scores_25 (t : List Char)
    (hlen : 0 < t.length) (hshort : t.length < 100)
    (hws : ∀ c ∈ t, pyIsSpace c = true) :
    (analyze_content_quality t).quality_score = 25
    ∧ (analyze_content_quality t).issues = ["Content too short"] := by
  have h := analyze_all_space t hlen hws
  rw [h.1, h.2]
  simp [hshort]

/-- C9 witness: the amended statement applied to a single space. -/
theorem c9_short_whitespace_scores_25_witness :
    (analyze_content_quality [' ']).quality_score = 25
    ∧ (analyze_content_quality [' ']).issues = ["Content too short"] :=
  c9_short_whitespace_scores_25 [' '] (by decide) (by decide)
    (fun c hc => by simp at hc; rw [hc]; rfl)

/-- C3 (amended): when the context's estimated token count exceeds the
larger model's ceiling, the selector always picks the fallback model
and applies truncation; and when additionally the query's estimated
token count is at most 11,400 (so the aggressive head-only budget is
non-negative), the final prompt's estimated token count is within the
ceiling.  For larger queries the bound can fail, because the query is
never truncated (see the counterexample). -/
theorem c3_oversized_context_truncated (context query : List Char)
    (h : TOKEN_LIMIT_FALLBACK < count_tokens context) :
    (select_model_and_prompt context query).model = FALLBACK_MODEL
    ∧ (select_model_and_prompt context query).truncation_applied = true
    ∧ (count_tokens query ≤ 11400 →
        count_tokens (select_model_and_prompt context query).prompt
          ≤ TOKEN_LIMIT_FALLBACK) := by
  have hct2 : 2 * count_tokens context ≤ context.length := by
    unfold count_tokens; omega
  have hq2 : query.length ≤ 2 * count_tokens query + 1 := by
    unfold count_tokens; omega
  simp only [TOKEN_LIMIT_FALLBACK] at h
  refine ⟨?_, ?_, ?_⟩ <;>
    simp only [select_model_and_prompt, TOKEN_LIMIT_PRIMARY, TOKEN_LIMIT_FALLBACK]
  · split_ifs <;> first | rfl | omega
  · split_ifs <;>
      first
        | omega
        | (simp only [decide_eq_true_eq]; omega)
  · intro hq
    have hs := pySliceTo_length_le context
      ((((12000 : Nat) : Int) - (count_tokens query : Int) - 400 - 200) * 2)
      (by omega)
    split_ifs <;> dsimp only <;>
      first
        | omega
        | (rw [count_tokens, build_prompt_instruct_length]; omega)

/-- C3 witness, which is exactly the claim's scenario: a context of
50,000 estimated tokens (100,000 characters) with a 50-token query
selects the fallback model with truncation applied and a final
estimate within the 12,000-token ceiling. -/
theorem c3_oversized_context_truncated_witness :
    (select_model_and_prompt (List.replicate 100000 'a')
        (List.replicate 100 'b')).model = FALLBACK_MODEL
    ∧ (select_model_and_prompt (List.replicate 100000 'a')
        (List.replicate 100 'b')).truncation_applied = true
    ∧ count_tokens (select_model_and_prompt (List.replicate 100000 'a')
        (List.replicate 100 'b')).prompt ≤ TOKEN_LIMIT_FALLBACK := by
  have h := c3_oversized_context_truncated
    (List.replicate 100000 'a') (List.replicate 100 'b')
    (by rw [count_tokens, List.length_replicate]; decide)
  exact ⟨h.1, h.2.1, h.2.2 (by rw [count_tokens, List.length_replicate]; decide)⟩

/-- C3 counterexample: the claim's universal bound fails for large
queries, which are never truncated.  With a context of 12,001 estimated
tokens (24,002 characters, so the claim's premise holds) and a query of
12,000 estimated tokens, the returned prompt still estimates to 23,922
tokens, far above the 12,000-token ceiling. -/
theorem c3_large_query_counterexample :
    TOKEN_LIMIT_FALLBACK < count_tokens (List.replicate 24002 'a')
    ∧ TOKEN_LIMIT_FALLBACK <
        count_tokens (select_model_and_prompt (List.replicate 24002 'a')
          (List.replicate 24000 'b')).prompt := by
  constructor
  · rw [count_tokens, List.length_replicate]; decide
  · have h := select_large_query_overflow (List.replicate 24002 'a')
      (List.replicate 24000 'b') (by rw [List.length_replicate])
      (by rw [List.length_replicate])
    exact h

/-- The strategy chain returns the content of the first accepted
attempt, and the exhaustion error exactly when no attempt is accepted. -/
theorem run_strategy_chain_eq_find (vq : Bool) (ml : Nat)
    (attempts : List FetchAttempt) :
    run_strategy_chain vq ml attempts
      = (match attempts.find? (attempt_accepted vq ml) with
         | some (.ok c) => Except.ok c
         | _ => Except.error chain_exhausted_message) := by
  induction attempts with
  | nil => rfl
  | cons a rest ih =>
    cases a with
    | err =>
      simp only [run_strategy_chain, List.find?, attempt_accepted, ih]
    | ok c =>
      cases vq with
      | false =>
        simp [run_strategy_chain, List.find?, attempt_accepted]
      | true =>
        by_cases hv : validate_content_quality c ml
        · simp [run_strategy_chain, List.find?, attempt_accepted, hv]
        · simp only [run_strategy_chain, if_true, hv, if_false, List.find?,
            attempt_accepted, Bool.not_true, Bool.false_or, ih]
          simp [hv]

/-- C4: the fetch chain raises its fatal exhaustion error exactly when
every strategy in the chain has raised or been quality-rejected (a
strategy that throws is skipped like a rejection, never fatal), and it
stops at the first attempt whose output passes the quality gate,
returning that content. -/
theorem c4_chain_fatal_only_on_exhaustion (vq : Bool) (ml : Nat)
    (attempts : List FetchAttempt) :
    (run_strategy_chain vq ml attempts = .error chain_exhausted_message
      ↔ ∀ a ∈ attempts, attempt_accepted vq ml a = false)
    ∧ run_strategy_chain vq ml attempts
        = (match attempts.find? (attempt_accepted vq ml) with
           | some (.ok c) => Except.ok c
           | _ => Except.error chain_exhausted_message) := by
  refine ⟨?_, run_strategy_chain_eq_find vq ml attempts⟩
  rw [run_strategy_chain_eq_find vq ml attempts]
  constructor
  · intro h a ha
    match hf : attempts.find? (attempt_accepted vq ml) with
    | none =>
      have := List.find?_eq_none.mp hf a ha
      simpa using this
    | some (.ok c) => rw [hf] at h; exact absurd h (by simp)
    | some .err =>
      have := List.find?_some hf
      simp [attempt_accepted] at this
  · intro h
    have hf : attempts.find? (attempt_accepted vq ml) = none :=
      List.find?_eq_none.mpr (fun a ha => by simp [h a ha])
    rw [hf]

/-- Enqueueing preserves the frontier bound: every append is guarded by
`len(visited) + len(frontier) < max_pages`, so the frontier never grows
past `max_pages` (and never past its starting size otherwise). -/
theorem enqueue_links_length_le (cfg : CrawlConfig) (v : List (List Char))
    (d : Nat) (links : List (List Char)) (f : List (List Char × Nat)) :
    (enqueue_links cfg v d links f).length ≤ max f.length cfg.max_pages := by
  induction links generalizing f with
  | nil => exact le_max_left _ _
  | cons l ls ih =>
    have h1 : enqueue_links cfg v d (l :: ls) f
        = enqueue_links cfg v d ls
            (if !pyStarts "http".data l then f
             else if l ∉ v ∧ v.length + f.length < cfg.max_pages
                     ∧ d + 1 ≤ cfg.max_depth
             then f ++ [(l, d + 1)] else f) := rfl
    rw [h1]
    split_ifs with hs hcond
    · exact ih f
    · have h2 := ih (f ++ [(l, d + 1)])
      simp only [List.length_append, List.length_cons, List.length_nil] at h2
      obtain ⟨-, hlt, -⟩ := hcond
      omega
    · exact ih f

/-- The crawl-loop invariants, by induction over the iterations:
the visited set is exactly the list of fetched URLs (so each URL is
fetched at most once), it has no duplicates, it stays within
`max_pages` whenever `max_pages ≥ 1`, every fetch happened at a depth
within `max_depth`, and the frontier never exceeds the larger of its
seeded size and `max_pages`. -/
theorem crawl_iter_invariant (cfg : CrawlConfig) (n : Nat) :
    (crawl_iter cfg n).visited = (crawl_iter cfg n).fetched.map Prod.fst
    ∧ (crawl_iter cfg n).visited.Nodup
    ∧ (1 ≤ cfg.max_pages → (crawl_iter cfg n).visited.length ≤ cfg.max_pages)
    ∧ (∀ p ∈ (crawl_iter cfg n).fetched, p.2 ≤ cfg.max_depth)
    ∧ (crawl_iter cfg n).frontier.length
        ≤ max (crawl_init cfg).frontier.length cfg.max_pages := by
  induction n with
  | zero =>
    refine ⟨rfl, by simp [crawl_iter, crawl_init],
      fun h => by simp [crawl_iter, crawl_init]; exact h, ?_, ?_⟩
    · intro p hp
      simp [crawl_iter, crawl_init] at hp
      simp [hp]
    · exact le_max_left _ _
  | succ n ih =>
    obtain ⟨ih1, ih2, ih3, ih4, ih5⟩ := ih
    have hstep : crawl_iter cfg (n + 1) = crawl_step cfg (crawl_iter cfg n) := rfl
    rw [hstep]
    set s := crawl_iter cfg n with hs
    unfold crawl_step
    split
    · exact ⟨ih1, ih2, ih3, ih4, ih5⟩
    · rename_i hguard
      have hlt : s.visited.length < cfg.max_pages := by
        by_contra hc
        exact hguard (Or.inr hc)
      have hne : ¬ s.frontier.isEmpty := fun hc => hguard (Or.inl hc)
      split
      · exact ⟨ih1, ih2, ih3, ih4, ih5⟩
      · rename_i u d rest hfr
        have hrest : rest.length + 1 = s.frontier.length := by
          rw [hfr]; simp
        split_ifs with hmem hdom hdep
        · exact ⟨ih1, ih2, ih3, fun p hp => ih4 p hp, by simp; omega⟩
        · exact ⟨ih1, ih2, ih3, fun p hp => ih4 p hp, by simp; omega⟩
        · exact ⟨ih1, ih2, ih3, fun p hp => ih4 p hp, by simp; omega⟩
        · have hvis : (s.visited ++ [u]) = (s.fetched ++ [(u, d)]).map Prod.fst := by
            rw [List.map_append, ih1]
            simp
          have hnodup : (s.visited ++ [u]).Nodup := by
            rw [List.nodup_append]
            refine ⟨ih2, by simp, ?_⟩
            intro a ha hb
            simp at hb
            subst hb
            exact hmem ha
          have hlen : 1 ≤ cfg.max_pages → (s.visited ++ [u]).length ≤ cfg.max_pages := by
            intro _
            simp
            omega
          have hfetch : ∀ p ∈ s.fetched ++ [(u, d)], p.2 ≤ cfg.max_depth := by
            intro p hp
            rcases List.mem_append.mp hp with h | h
            · exact ih4 p h
            · simp at h
              rw [h]
              simp
              omega
          split
          · exact ⟨hvis, hnodup, hlen, hfetch, by simp; omega⟩
          · refine ⟨hvis, hnodup, hlen, hfetch, ?_⟩
            have he := enqueue_links_length_le cfg (s.visited ++ [u]) d
              (((cfg.page_links u).getD [])) rest
            simp only []
            omega

/-- C2 counterexample: with `max_pages = 0`, the visited set already
holds the seed URL (1 entry) when the crawl loop starts, so "the
visited set never holds more than max_pages entries at any point" fails
for that `max_pages`. -/
theorem c2_zero_budget_counterexample :
    zero_budget_config.max_pages = 0
    ∧ zero_budget_config.max_pages
        < (crawl_iter zero_budget_config 0).visited.length :=
  ⟨rfl, by decide⟩

/-- C2 (amended): at every point during the crawl, no URL is fetched
twice (the fetch log's URLs are pairwise distinct — the code keys the
visited set on the exact absolute URL string, which is the only
normalization it performs), and for every `max_pages ≥ 1` the visited
set never holds more than `max_pages` entries.  `max_pages = 0` is the
sole exception: the seed is placed in the visited set before the loop
(see the counterexample). -/
theorem c2_no_double_visit_and_budget (cfg : CrawlConfig) (n : Nat) :
    ((crawl_iter cfg n).fetched.map Prod.fst).Nodup
    ∧ (1 ≤ cfg.max_pages → (crawl_iter cfg n).visited.length ≤ cfg.max_pages) := by
  obtain ⟨h1, h2, h3, -, -⟩ := crawl_iter_invariant cfg n
  exact ⟨by rw [← h1]; exact h2, h3⟩

/-- C2 witness: the amended statement on a concrete two-iteration
crawl with budget 5. -/
theorem c2_no_double_visit_and_budget_witness :
    ((crawl_iter one_page_config 2).fetched.map Prod.fst).Nodup
    ∧ (crawl_iter one_page_config 2).visited.length
        ≤ one_page_config.max_pages :=
  ⟨(c2_no_double_visit_and_budget one_page_config 2).1,
   (c2_no_double_visit_and_budget one_page_config 2).2 (by decide)⟩

/-- C8 counterexample: seeding the frontier with the seed page's links
is not capped by `max_pages`: with two seed links and `max_pages = 1`,
the queue holds 2 entries immediately after seeding. -/
theorem c8_seed_overflow_counterexample :
    two_link_config.max_pages = 1
    ∧ two_link_config.max_pages
        < (crawl_iter two_link_config 0).frontier.length :=
  ⟨rfl, by decide⟩

/-- C8 (amended): the frontier may exceed `max_pages` immediately after
seeding — the seeding loop is uncapped, bounded only by the number of
links found on the seed page.  During the loop the frontier never grows
beyond the larger of its seeded size and `max_pages`, because every
enqueue is guarded by `len(visited) + len(frontier) < max_pages`. -/
theorem c8_frontier_bounded_by_seed_or_budget (cfg : CrawlConfig) (n : Nat) :
    (crawl_iter cfg n).frontier.length
      ≤ max (crawl_init cfg).frontier.length cfg.max_pages :=
  (crawl_iter_invariant cfg n).2.2.2.2

/-- C10: at every point during a crawl, every fetched page (the seed at
depth 0 included) was fetched at a depth within `max_depth`: the depth
bound is checked when an entry is dequeued, before the URL is marked
visited and before any network access, so out-of-depth queue entries
are skipped without being fetched. -/
theorem c10_no_fetch_beyond_max_depth (cfg : CrawlConfig) (n : Nat) :
    ∀ p ∈ (crawl_iter cfg n).fetched, p.2 ≤ cfg.max_depth :=
  (crawl_iter_invariant cfg n).2.2.2.1

/-- C10 witness: a crawl that fetches one linked page at depth 1 with
`max_depth = 1`. -/
theorem c10_no_fetch_beyond_max_depth_witness :
    ("http://example.com/a".data, 1) ∈ (crawl_iter one_page_config 1).fetched
    ∧ 1 ≤ one_page_config.max_depth :=
  ⟨by decide,
   c10_no_fetch_beyond_max_depth one_page_config 1
     ("http://example.com/a".data, 1) (by decide)⟩

/-- C6 counterexample: the second clean pass is not limited to
whitespace.  On `"aaaa aaaa aa#,-"` the first pass strips the trailing
punctuation, leaving `"aaaa aaaa aa"` (10 non-whitespace characters);
re-cleaning that line, the per-line noise filter now sees a
12-character line with only 2 distinct characters (diversity below the
0.3 threshold) and deletes it entirely, and the salvage pass keeps
nothing — so the second pass removes all 10 remaining non-whitespace
characters. -/
theorem c6_second_pass_removes_content_counterexample :
    nonWsCount (aggressive_clean_text "aaaa aaaa aa#,-".data) = 10
    ∧ nonWsCount
        (aggressive_clean_text (aggressive_clean_text "aaaa aaaa aa#,-".data)) = 0
    ∧ (10 : Nat) ≠ 0 :=
  ⟨by decide, by decide, by decide⟩

/-- C6 (amended): `aggressive_clean_text` is not
idempotent-up-to-whitespace.  A second pass can delete whole content
lines, not just whitespace: first-pass line cleaning (for instance the
trailing-punctuation strip) can push a surviving line below the noise
filter's character-diversity threshold, and the quality-gated salvage
pass can then drop the rest.  Concretely, one pass maps
`"aaaa aaaa aa#,-"` to the line `"aaaa aaaa aa"`, and a second pass
maps that line to the empty string. -/
theorem c6_clean_not_whitespace_idempotent :
    aggressive_clean_text "aaaa aaaa aa#,-".data = "aaaa aaaa aa".data
    ∧ aggressive_clean_text "aaaa aaaa aa".data = [] :=
  ⟨by decide, by decide⟩

/-- `_validate_and_filter_chunks` output guarantee: every surviving
chunk is at least `min_chunk_size` characters and scores strictly above
the quality floor of 20. -/
theorem validate_and_filter_sound (chunks : List (List Char)) (ms : Nat) :
    ∀ c ∈ validate_and_filter_chunks chunks ms,
      ms ≤ c.length ∧ 20 < (analyze_content_quality c).quality_score := by
  induction chunks with
  | nil => intro c hc; simp [validate_and_filter_chunks] at hc
  | cons ch rest ih =>
    intro c hc
    unfold validate_and_filter_chunks at hc
    simp only [List.foldr] at hc
    split_ifs at hc with h1 h2
    · exact ih c hc
    · rcases List.mem_cons.mp hc with h | h
      · subst h
        push_neg at h1
        exact ⟨by omega, h2⟩
      · exact ih c h
    · exact ih c hc

/-- C5 (amended): on the structure-aware path — `preserve_structure`
set and the structure-aware splitter producing at least one chunk —
every returned chunk has length ≥ `min_chunk_size` and quality score
strictly above the floor of 20, because that path runs
`_validate_and_filter_chunks`.  The claim's "every chunking path" is
refuted by the counterexample: the character-based fallback checks only
the minimum length (and the short-text token path checks neither). -/
theorem c5_structure_path_validated (tok : Option Tokenizer) (text : List Char)
    (chunk_size chunk_overlap min_chunk_size : Nat)
    (hstruct : ¬ (structure_aware_chunking text
        (if (analyze_content_quality text).quality_score < 50
         then min chunk_size 500 else chunk_size)
        (if (analyze_content_quality text).quality_score < 50
         then min chunk_overlap 50 else chunk_overlap)).isEmpty) :
    ∀ c ∈ enhanced_chunk_text tok text chunk_size chunk_overlap min_chunk_size true,
      min_chunk_size ≤ c.length
      ∧ 20 < (analyze_content_quality c).quality_score := by
  intro c hc
  unfold enhanced_chunk_text at hc
  by_cases hemp : text.isEmpty
  · simp [hemp] at hc
  · simp only [hemp, Bool.false_eq_true, if_false, if_true] at hc
    rw [if_pos hstruct] at hc
    exact validate_and_filter_sound _ _ c hc

/-- C5 witness: the amended statement on a one-line high-quality text
(structure-aware path, one validated chunk). -/
theorem c5_structure_path_validated_witness :
    10 ≤ "Hello there friend. This is a perfectly reasonable paragraph with plenty of words and diversity.".data.length
    ∧ 20 < (analyze_content_quality "Hello there friend. This is a perfectly reasonable paragraph with plenty of words and diversity.".data).quality_score :=
  c5_structure_path_validated none
    "Hello there friend. This is a perfectly reasonable paragraph with plenty of words and diversity.".data
    800 100 10 (by decide)
    "Hello there friend. This is a perfectly reasonable paragraph with plenty of words and diversity.".data
    (by decide)

/-- C5 counterexample: with `preserve_structure = False` and no
tokenizer, the character-based fallback path returns a 60-character
chunk of quality score 10, which is below the quality floor of 20 that
the claim asserts for every path (only the `min_size` length check is
applied on this path). -/
theorem c5_quality_floor_counterexample :
    enhanced_chunk_text none
      "spam spam spam spam spam spam spam spam spam spam spam spam".data
      800 100 50 false
      = ["spam spam spam spam spam spam spam spam spam spam spam spam.".data]
    ∧ (analyze_content_quality
        "spam spam spam spam spam spam spam spam spam spam spam spam.".data).quality_score
        = 10
    ∧ ¬ (20 : Nat) < 10 :=
  ⟨by decide, by decide, by decide⟩

/-- C4 witness: a chain whose first strategy throws, whose second is
quality-rejected (repetitive content) and whose third passes: the chain
returns the third attempt's content and no error is raised. -/
theorem c4_chain_fatal_only_on_exhaustion_witness :
    run_strategy_chain true 5
      [FetchAttempt.err,
       FetchAttempt.ok "spam spam spam spam spam spam".data,
       FetchAttempt.ok "alpha beta gamma delta words".data]
      = Except.ok "alpha beta gamma delta words".data := by
  rw [(c4_chain_fatal_only_on_exhaustion true 5
    [FetchAttempt.err,
     FetchAttempt.ok "spam spam spam spam spam spam".data,
     FetchAttempt.ok "alpha beta gamma delta words".data]).2]
  rfl

end Bot
